import Mathlib

/-!
DS3231 real-time-clock driver.

A shallow embedding of `DS3231.h` / `DS3231.cpp` and the properties proved of it.

* `uint8_t` values are natural numbers; every store into a `uint8_t` variable is made
  explicit with `u8` (reduction modulo 256), the intermediate arithmetic is done on
  unbounded numbers as C does after integer promotion.
* The driver keeps no state of its own.  All state lives in `World`: the buffers of the
  two-wire bus object, the register file of the device behind it, and the indeterminate
  content of an uninitialised local.
* Every driver function is a function on `World`; the ones returning a value return a pair.
-/

namespace DS3231

/-! ## Constants of `DS3231.h` -/

def DS3231_ADDRESS : Nat := 0x68

def DS3231_SECONDS_REG : Nat := 0x0
def DS3231_MINUTES_REG : Nat := 0x1
def DS3231_HOURS_REG : Nat := 0x2
def DS3231_DAY_REG : Nat := 0x3
def DS3231_DATE_REG : Nat := 0x4
def DS3231_CENTURY_MONTH_REG : Nat := 0x5
def DS3231_YEAR_REG : Nat := 0x6

def DS3231_SECONDS_MASK : Nat := 0x0F
def DS3231_10_SECONDS_MASK : Nat := 0x70
def DS3231_10_SECONDS_SHIFT : Nat := 0x4

def DS3231_MINUTES_MASK : Nat := 0x0F
def DS3231_10_MINUTES_MASK : Nat := 0x70
def DS3231_10_MINUTES_SHIFT : Nat := 0x4

def DS3231_HOURS_MASK : Nat := 0x0F
def DS3231_10_HOURS_MASK : Nat := 0x10
def DS3231_20_HOURS_AM_PM_MASK : Nat := 0x20
def DS3231_12_24_HOUR_MASK : Nat := 0x40

def DS3231_10_HOURS_SHIFT : Nat := 0x4
def DS3231_20_HOURS_AM_PM_SHIFT : Nat := 0x5
def DS3231_12_24_HOUR_SHIFT : Nat := 0x6

def DS3231_DAY_MASK : Nat := 0x07

def DS3231_DATE_MASK : Nat := 0x0F
def DS3231_10_DATE_MASK : Nat := 0x30
def DS3231_10_DATE_SHIFT : Nat := 0x4

def DS3231_MONTH_MASK : Nat := 0x0F
def DS3231_10_MONTH_MASK : Nat := 0x10
def DS3231_CENTURY_MASK : Nat := 0x80
def DS3231_10_MONTH_SHIFT : Nat := 0x4
def DS3231_CENTURY_SHIFT : Nat := 0x7

def DS3231_YEAR_MASK : Nat := 0x0F
def DS3231_10_YEAR_MASK : Nat := 0xF0
def DS3231_10_YEAR_SHIFT : Nat := 0x4

def DS3231_HOURS_24_FORMAT : Nat := 0x0
def DS3231_HOURS_12_FORMAT : Nat := 0x1
def DS3231_HOURS_AM : Nat := 0x0
def DS3231_HOURS_PM : Nat := 0x1

/-- Store into a `uint8_t`: the value is reduced modulo 256. -/
def u8 (n : Nat) : Nat := n % 256

/-! ## Value structs of `DS3231.h` -/

/-- The struct `HOURS`: hour, AM/PM flag, 12/24-hour format flag (all `uint8_t`). -/
structure HOURS where
  hour : Nat
  hour_am_pm : Nat
  hour_12_24 : Nat
deriving DecidableEq

/-- The struct `TIME`. -/
structure TIME where
  seconds : Nat
  minutes : Nat
  hour_data : HOURS
deriving DecidableEq

/-- The struct `DATE`. -/
structure DATE where
  day : Nat
  date : Nat
  month : Nat
  year : Nat
  century : Nat
deriving DecidableEq

/-! ## The two-wire transport and the device

`Wire.h` is an external library.  Its object `Wire` and the clock chip behind it are
modelled from section 6 of the specification: a register access writes the target address
byte and then either writes one data byte or requests exactly one byte. -/

/-- Modelled from the spec: the two-wire bus object `Wire` (external `Wire.h`), the
register file of the device it talks to, and the indeterminate byte an uninitialised
`uint8_t` local holds. -/
structure World where
  /-- Register file of the device, one byte per address. -/
  regs : Nat → Nat
  /-- Register pointer of the device: the address the next access refers to. -/
  pointer : Nat
  /-- Whether a device acknowledges on the bus and delivers requested bytes. -/
  present : Bool
  /-- Bus address given to the last `beginTransmission`. -/
  txAddress : Nat
  /-- Bytes queued by `write` since the last `beginTransmission`. -/
  txBuffer : List Nat
  /-- Bytes delivered by the last `requestFrom` and not yet consumed by `read`. -/
  rxBuffer : List Nat
  /-- Frames put on the bus by `endTransmission`, oldest first: bus address and payload. -/
  sent : List (Nat × List Nat)
  /-- Content of a `uint8_t` local that was declared without an initialiser. -/
  uninit : Nat

/-- Modelled from the spec: `Wire.beginTransmission(address)` starts an empty frame. -/
def World.beginTransmission (w : World) (address : Nat) : World :=
  { w with txAddress := address, txBuffer := [] }

/-- Modelled from the spec: `Wire.write(data)` queues one byte (the parameter is a
`uint8_t`). -/
def World.write (w : World) (data : Nat) : World :=
  { w with txBuffer := w.txBuffer ++ [u8 data] }

/-- Modelled from the spec: the device stores the data bytes of a frame at consecutive
addresses starting at its register pointer. -/
def deviceStore : List Nat → Nat → (Nat → Nat) → Nat × (Nat → Nat)
  | [], p, regs => (p, regs)
  | b :: rest, p, regs => deviceStore rest (p + 1) (Function.update regs p b)

/-- Modelled from the spec: `Wire.endTransmission()` puts the queued frame on the bus.
A device that is present at that bus address takes the first byte as the target register
address and stores the data bytes that follow. -/
def World.endTransmission (w : World) : World :=
  let w1 := { w with sent := w.sent ++ [(w.txAddress, w.txBuffer)], txBuffer := [] }
  if w.present && w.txAddress == DS3231_ADDRESS then
    match w.txBuffer with
    | [] => w1
    | reg :: data =>
      let r := deviceStore data reg w.regs
      { w1 with pointer := r.1, regs := r.2 }
  else w1

/-- Modelled from the spec: `Wire.requestFrom(address, quantity)` asks for `quantity`
bytes.  A present device delivers the registers from its pointer on; otherwise nothing is
delivered. -/
def World.requestFrom (w : World) (address quantity : Nat) : World :=
  if w.present && address == DS3231_ADDRESS then
    { w with rxBuffer := (List.range quantity).map (fun i => w.regs (w.pointer + i)),
             pointer := w.pointer + quantity }
  else { w with rxBuffer := [] }

/-- The loop `while(Wire.available()) { read_val = Wire.read(); }` of `readRegister`,
run over the bytes waiting in the receive buffer: each byte read replaces `read_val`. -/
def readLoop : List Nat → Nat → Nat
  | [], read_val => read_val
  | b :: rest, _ => readLoop rest (u8 b)

/-! ## Register access (`DS3231.cpp`, lines 14-42) -/

/-- `DS3231::readRegister`: `read_val` is declared without initialiser, the register
address is sent, one byte is requested, and the receive loop assigns what arrived. -/
def readRegister (reg : Nat) (w : World) : Nat × World :=
  let read_val := u8 w.uninit
  let w := w.beginTransmission DS3231_ADDRESS
  let w := w.write reg
  let w := w.endTransmission
  let w := w.requestFrom DS3231_ADDRESS 1
  (readLoop w.rxBuffer read_val, { w with rxBuffer := [] })

/-- `DS3231::writeRegister`: one frame holding the register address and the data byte. -/
def writeRegister (reg data : Nat) (w : World) : World :=
  let w := w.beginTransmission DS3231_ADDRESS
  let w := w.write reg
  let w := w.write data
  w.endTransmission

/-! ## Time (`DS3231.cpp`, lines 48-229) -/

/-- The conversion in `DS3231::readSeconds` from the register byte `read_s`. -/
def decodeSeconds (read_s : Nat) : Nat :=
  let seconds := u8 (read_s &&& DS3231_SECONDS_MASK)
  let seconds := u8 (seconds + ((read_s &&& DS3231_10_SECONDS_MASK) >>> DS3231_10_SECONDS_SHIFT) * 10)
  seconds

/-- `DS3231::readSeconds`. -/
def readSeconds (w : World) : Nat × World :=
  let r := readRegister DS3231_SECONDS_REG w
  (decodeSeconds r.1, r.2)

/-- The conversion in `DS3231::readMinutes` from the register byte `read_m`. -/
def decodeMinutes (read_m : Nat) : Nat :=
  let minutes := u8 (read_m &&& DS3231_MINUTES_MASK)
  let minutes := u8 (minutes + ((read_m &&& DS3231_10_MINUTES_MASK) >>> DS3231_10_MINUTES_SHIFT) * 10)
  minutes

/-- `DS3231::readMinutes`. -/
def readMinutes (w : World) : Nat × World :=
  let r := readRegister DS3231_MINUTES_REG w
  (decodeMinutes r.1, r.2)

/-- The conversion in `DS3231::readHours` from the register byte `read_h`. -/
def decodeHours (read_h : Nat) : HOURS :=
  let am_pm : Nat := 0
  let hour_format := u8 ((read_h &&& DS3231_12_24_HOUR_MASK) >>> DS3231_12_24_HOUR_SHIFT)
  let hours := u8 (read_h &&& DS3231_HOURS_MASK)
  let hours := u8 (hours + ((read_h &&& DS3231_10_HOURS_MASK) >>> DS3231_10_HOURS_SHIFT) * 10)
  if hour_format = DS3231_HOURS_12_FORMAT then
    let am_pm := u8 ((read_h &&& DS3231_20_HOURS_AM_PM_MASK) >>> DS3231_20_HOURS_AM_PM_SHIFT)
    { hour_12_24 := hour_format, hour_am_pm := am_pm, hour := hours }
  else
    let hours := u8 (hours + ((read_h &&& DS3231_20_HOURS_AM_PM_MASK) >>> DS3231_20_HOURS_AM_PM_SHIFT) * 20)
    { hour_12_24 := hour_format, hour_am_pm := am_pm, hour := hours }

/-- `DS3231::readHours`. -/
def readHours (w : World) : HOURS × World :=
  let r := readRegister DS3231_HOURS_REG w
  (decodeHours r.1, r.2)

/-- `DS3231::readTime`: seconds, minutes, hours, in that order. -/
def readTime (w : World) : TIME × World :=
  let s := readSeconds w
  let m := readMinutes s.2
  let h := readHours m.2
  ({ seconds := s.1, minutes := m.1, hour_data := h.1 }, h.2)

/-- The byte `write_sec` that `DS3231::writeSeconds` builds (the source shifts by
`DS3231_10_MINUTES_SHIFT` here). -/
def encodeSeconds (sec : Nat) : Nat :=
  let write_sec : Nat := 0
  let write_sec :=
    if sec ≥ 10 then u8 (write_sec ||| (u8 (sec / 10) <<< DS3231_10_MINUTES_SHIFT)) else write_sec
  u8 (write_sec ||| (sec % 10))

/-- `DS3231::writeSeconds`. -/
def writeSeconds (sec : Nat) (w : World) : World :=
  writeRegister DS3231_SECONDS_REG (encodeSeconds sec) w

/-- The byte `write_mins` that `DS3231::writeMinutes` builds. -/
def encodeMinutes (mins : Nat) : Nat :=
  let write_mins : Nat := 0
  let write_mins :=
    if mins ≥ 10 then u8 (write_mins ||| (u8 (mins / 10) <<< DS3231_10_MINUTES_SHIFT)) else write_mins
  u8 (write_mins ||| (mins % 10))

/-- `DS3231::writeMinutes`. -/
def writeMinutes (mins : Nat) (w : World) : World :=
  writeRegister DS3231_MINUTES_REG (encodeMinutes mins) w

/-- The byte `write_hours` that `DS3231::writeHours` builds. -/
def encodeHours (hour_data : HOURS) : Nat :=
  let write_hours : Nat := 0
  let write_hours := u8 (write_hours ||| (hour_data.hour_12_24 <<< DS3231_12_24_HOUR_SHIFT))
  if hour_data.hour_12_24 = DS3231_HOURS_12_FORMAT then
    let write_hours := u8 (write_hours ||| (hour_data.hour_am_pm <<< DS3231_20_HOURS_AM_PM_SHIFT))
    if hour_data.hour ≥ 10 then
      let write_hours := u8 (write_hours ||| ((hour_data.hour / 10) <<< DS3231_10_HOURS_SHIFT))
      u8 (write_hours ||| (hour_data.hour - 10))
    else
      u8 (write_hours ||| hour_data.hour)
  else
    if hour_data.hour ≥ 20 then
      let write_hours := u8 (write_hours ||| ((hour_data.hour / 20) <<< DS3231_20_HOURS_AM_PM_SHIFT))
      u8 (write_hours ||| (hour_data.hour - 20))
    else if hour_data.hour ≥ 10 then
      let write_hours := u8 (write_hours ||| ((hour_data.hour / 10) <<< DS3231_10_HOURS_SHIFT))
      u8 (write_hours ||| (hour_data.hour - 10))
    else
      u8 (write_hours ||| hour_data.hour)

/-- `DS3231::writeHours`. -/
def writeHours (hour_data : HOURS) (w : World) : World :=
  writeRegister DS3231_HOURS_REG (encodeHours hour_data) w

/-- `DS3231::writeTime`: seconds, minutes, hours, in that order. -/
def writeTime (time_data : TIME) (w : World) : World :=
  let w := writeSeconds time_data.seconds w
  let w := writeMinutes time_data.minutes w
  writeHours time_data.hour_data w

/-! ## Date (`DS3231.cpp`, lines 235-404) -/

/-- The conversion in `DS3231::readDay`. -/
def decodeDay (read_d : Nat) : Nat :=
  u8 (read_d &&& DS3231_DAY_MASK)

/-- `DS3231::readDay`. -/
def readDay (w : World) : Nat × World :=
  let r := readRegister DS3231_DAY_REG w
  (decodeDay r.1, r.2)

/-- The conversion in `DS3231::readDate`. -/
def decodeDate (read_d : Nat) : Nat :=
  let date := u8 (read_d &&& DS3231_DATE_MASK)
  let date := u8 (date + ((read_d &&& DS3231_10_DATE_MASK) >>> DS3231_10_DATE_SHIFT) * 10)
  date

/-- `DS3231::readDate`. -/
def readDate (w : World) : Nat × World :=
  let r := readRegister DS3231_DATE_REG w
  (decodeDate r.1, r.2)

/-- The conversion in `DS3231::readMonth`. -/
def decodeMonth (read_m : Nat) : Nat :=
  let month := u8 (read_m &&& DS3231_MONTH_MASK)
  let month := u8 (month + ((read_m &&& DS3231_10_MONTH_MASK) >>> DS3231_10_MONTH_SHIFT) * 10)
  month

/-- `DS3231::readMonth`. -/
def readMonth (w : World) : Nat × World :=
  let r := readRegister DS3231_CENTURY_MONTH_REG w
  (decodeMonth r.1, r.2)

/-- The conversion in `DS3231::readYear`. -/
def decodeYear (read_y : Nat) : Nat :=
  let year := u8 (read_y &&& DS3231_YEAR_MASK)
  let year := u8 (year + ((read_y &&& DS3231_10_YEAR_MASK) >>> DS3231_10_YEAR_SHIFT) * 10)
  year

/-- `DS3231::readYear`. -/
def readYear (w : World) : Nat × World :=
  let r := readRegister DS3231_YEAR_REG w
  (decodeYear r.1, r.2)

/-- The conversion in `DS3231::readCentury`. -/
def decodeCentury (read_c : Nat) : Nat :=
  u8 ((read_c &&& DS3231_CENTURY_MASK) >>> DS3231_CENTURY_SHIFT)

/-- `DS3231::readCentury`. -/
def readCentury (w : World) : Nat × World :=
  let r := readRegister DS3231_CENTURY_MONTH_REG w
  (decodeCentury r.1, r.2)

/-- `DS3231::readFullDate`: day, date, month, year, century, in that order. -/
def readFullDate (w : World) : DATE × World :=
  let d := readDay w
  let dt := readDate d.2
  let m := readMonth dt.2
  let y := readYear m.2
  let c := readCentury y.2
  ({ day := d.1, date := dt.1, month := m.1, year := y.1, century := c.1 }, c.2)

/-- The byte `write_day` that `DS3231::writeDay` builds. -/
def encodeDay (day : Nat) : Nat :=
  u8 (day &&& DS3231_DAY_MASK)

/-- `DS3231::writeDay`. -/
def writeDay (day : Nat) (w : World) : World :=
  writeRegister DS3231_DAY_REG (encodeDay day) w

/-- The byte `write_date` that `DS3231::writeDate` builds. -/
def encodeDate (date : Nat) : Nat :=
  let write_date : Nat := 0
  let write_date :=
    if date ≥ 10 then u8 (write_date ||| (u8 (date / 10) <<< DS3231_10_DATE_SHIFT)) else write_date
  u8 (write_date ||| (date % 10))

/-- `DS3231::writeDate`. -/
def writeDate (date : Nat) (w : World) : World :=
  writeRegister DS3231_DATE_REG (encodeDate date) w

/-- The byte `write_month` that `DS3231::writeMonth` builds. -/
def encodeMonth (month : Nat) : Nat :=
  let write_month : Nat := 0
  let write_month :=
    if month ≥ 10 then u8 (write_month ||| (u8 (month / 10) <<< DS3231_10_MONTH_SHIFT)) else write_month
  u8 (write_month ||| (month % 10))

/-- `DS3231::writeMonth`. -/
def writeMonth (month : Nat) (w : World) : World :=
  writeRegister DS3231_CENTURY_MONTH_REG (encodeMonth month) w

/-- The byte `write_year` that `DS3231::writeYear` builds. -/
def encodeYear (year : Nat) : Nat :=
  let write_year : Nat := 0
  let write_year :=
    if year ≥ 10 then u8 (write_year ||| (u8 (year / 10) <<< DS3231_10_YEAR_SHIFT)) else write_year
  u8 (write_year ||| (year % 10))

/-- `DS3231::writeYear`. -/
def writeYear (year : Nat) (w : World) : World :=
  writeRegister DS3231_YEAR_REG (encodeYear year) w

/-- `DS3231::writeFullDate`: day, date, month, year, in that order; the century field of
the argument is not used. -/
def writeFullDate (date : DATE) (w : World) : World :=
  let w := writeDay date.day w
  let w := writeDate date.date w
  let w := writeMonth date.month w
  writeYear date.year w

/-! ## Vocabulary of the properties -/

/-- The operation `op` performs exactly one register write, of the byte `b` at the register
address `reg`: whatever the state, it puts exactly one frame on the bus, holding `reg` and
`b` and addressed to the device; it leaves every other register as it was; and a present
device holds `b` at `reg` afterwards. -/
def WritesByte (op : World → World) (reg b : Nat) : Prop :=
  ∀ w : World,
    (op w).sent = w.sent ++ [(DS3231_ADDRESS, [reg, b])] ∧
      (∀ a : Nat, a ≠ reg → (op w).regs a = w.regs a) ∧
      (w.present = true → (op w).regs reg = b)

/-- The data-model invariant of `Hours`: 1..12 with AM or PM in 12-hour format, 0..23 in
24-hour format (where the AM/PM component is unconstrained). -/
def HOURS.valid (h : HOURS) : Prop :=
  (h.hour_12_24 = DS3231_HOURS_12_FORMAT ∧ 1 ≤ h.hour ∧ h.hour ≤ 12 ∧
      (h.hour_am_pm = DS3231_HOURS_AM ∨ h.hour_am_pm = DS3231_HOURS_PM)) ∨
    (h.hour_12_24 = DS3231_HOURS_24_FORMAT ∧ h.hour ≤ 23)

instance (h : HOURS) : Decidable h.valid := by
  unfold HOURS.valid; infer_instance

/-- The data-model invariant of `Time`: seconds and minutes 0..59, valid hours. -/
def TIME.valid (t : TIME) : Prop :=
  t.seconds ≤ 59 ∧ t.minutes ≤ 59 ∧ t.hour_data.valid

instance (t : TIME) : Decidable t.valid := by
  unfold TIME.valid; infer_instance

/-- The data-model invariant of `Date`: day of week 0..6, date 1..31, month 1..12, year
0..99, century 0..1. -/
def DATE.valid (d : DATE) : Prop :=
  d.day ≤ 6 ∧ (1 ≤ d.date ∧ d.date ≤ 31) ∧ (1 ≤ d.month ∧ d.month ≤ 12) ∧ d.year ≤ 99 ∧
    d.century ≤ 1

instance (d : DATE) : Decidable d.valid := by
  unfold DATE.valid; infer_instance

/-- A device that is present, with all registers zero and nothing sent so far. -/
def world0 : World :=
  { regs := fun _ => 0, pointer := 0, present := true, txAddress := 0, txBuffer := [],
    rxBuffer := [], sent := [], uninit := 0 }

/-- A present device whose registers all hold 0xFF (so the century bit is set). -/
def worldFF : World :=
  { regs := fun _ => 0xFF, pointer := 0, present := true, txAddress := 0, txBuffer := [],
    rxBuffer := [], sent := [], uninit := 0 }

/-- A bus on which no device answers; the uninitialised local happens to hold 0x59. -/
def worldAbsent : World :=
  { regs := fun _ => 0, pointer := 0, present := false, txAddress := 0, txBuffer := [],
    rxBuffer := [], sent := [], uninit := 0x59 }

/-- Bit `n` of `b`, as 0 or 1. -/
def bitOf (b n : Nat) : Nat := (b >>> n) % 2

/-- A well-formed hours register byte: bit 7 clear, low nibble at most 9, and either the
format bit 6 set with the decoded hour in 1..12, or the format bit clear with bits 4 and 5
not both set and the decoded hour in 0..23. -/
def HoursByteWellFormed (b : Nat) : Prop :=
  bitOf b 7 = 0 ∧ b &&& 0x0F ≤ 9 ∧
    ((bitOf b 6 = 1 ∧ 1 ≤ (decodeHours b).hour ∧ (decodeHours b).hour ≤ 12) ∨
      (bitOf b 6 = 0 ∧ ¬(bitOf b 4 = 1 ∧ bitOf b 5 = 1) ∧ (decodeHours b).hour ≤ 23))

instance (b : Nat) : Decidable (HoursByteWellFormed b) := by
  unfold HoursByteWellFormed; infer_instance

/-- The register writes `writeTime` is specified to issue, in order: seconds at 0x00,
minutes at 0x01, hours at 0x02, each with the byte of the per-field write. -/
def writeTimeFrames (t : TIME) : List (Nat × List Nat) :=
  [(DS3231_ADDRESS, [0x00, encodeSeconds t.seconds]),
   (DS3231_ADDRESS, [0x01, encodeMinutes t.minutes]),
   (DS3231_ADDRESS, [0x02, encodeHours t.hour_data])]

/-- The register writes `writeFullDate` is specified to issue, in order: day at 0x03, date
at 0x04, month at 0x05, year at 0x06, each with the byte of the per-field write. -/
def writeFullDateFrames (d : DATE) : List (Nat × List Nat) :=
  [(DS3231_ADDRESS, [0x03, encodeDay d.day]),
   (DS3231_ADDRESS, [0x04, encodeDate d.date]),
   (DS3231_ADDRESS, [0x05, encodeMonth d.month]),
   (DS3231_ADDRESS, [0x06, encodeYear d.year])]

/-- A present device whose hours register holds 0x72 and whose month register holds 0x92. -/
def worldSet : World :=
  { regs := fun a => if a = 2 then 0x72 else if a = 5 then 0x92 else 0, pointer := 0,
    present := true, txAddress := 0, txBuffer := [], rxBuffer := [], sent := [], uninit := 0 }

/-- The seconds formula of `readSeconds` over unbounded numbers (no reduction modulo 256). -/
def wideSeconds (b : Nat) : Nat :=
  (b &&& DS3231_SECONDS_MASK) + ((b &&& DS3231_10_SECONDS_MASK) >>> DS3231_10_SECONDS_SHIFT) * 10

/-- The minutes formula of `readMinutes` over unbounded numbers. -/
def wideMinutes (b : Nat) : Nat :=
  (b &&& DS3231_MINUTES_MASK) + ((b &&& DS3231_10_MINUTES_MASK) >>> DS3231_10_MINUTES_SHIFT) * 10

/-- The hour formula of `readHours` over unbounded numbers: units and tens-of-10, plus the
tens-of-20 term when the format bit does not say 12-hour. -/
def wideHours (b : Nat) : Nat :=
  (b &&& DS3231_HOURS_MASK) + ((b &&& DS3231_10_HOURS_MASK) >>> DS3231_10_HOURS_SHIFT) * 10 +
    (if (b &&& DS3231_12_24_HOUR_MASK) >>> DS3231_12_24_HOUR_SHIFT = DS3231_HOURS_12_FORMAT then 0
     else ((b &&& DS3231_20_HOURS_AM_PM_MASK) >>> DS3231_20_HOURS_AM_PM_SHIFT) * 20)

/-- The date formula of `readDate` over unbounded numbers. -/
def wideDate (b : Nat) : Nat :=
  (b &&& DS3231_DATE_MASK) + ((b &&& DS3231_10_DATE_MASK) >>> DS3231_10_DATE_SHIFT) * 10

/-- The month formula of `readMonth` over unbounded numbers. -/
def wideMonth (b : Nat) : Nat :=
  (b &&& DS3231_MONTH_MASK) + ((b &&& DS3231_10_MONTH_MASK) >>> DS3231_10_MONTH_SHIFT) * 10

/-- The year formula of `readYear` over unbounded numbers. -/
def wideYear (b : Nat) : Nat :=
  (b &&& DS3231_YEAR_MASK) + ((b &&& DS3231_10_YEAR_MASK) >>> DS3231_10_YEAR_SHIFT) * 10

/-! ## Facts about the transport -/

theorem writeRegister_regs (reg data : Nat) (w : World) (a : Nat) :
    (writeRegister reg data w).regs a
      = if w.present = true ∧ a = u8 reg then u8 data else w.regs a := by
  cases hp : w.present <;>
    simp [writeRegister, World.beginTransmission, World.write, World.endTransmission,
      deviceStore, DS3231_ADDRESS, hp, Function.update_apply]

theorem writeRegister_sent (reg data : Nat) (w : World) :
    (writeRegister reg data w).sent = w.sent ++ [(DS3231_ADDRESS, [u8 reg, u8 data])] := by
  cases hp : w.present <;>
    simp [writeRegister, World.beginTransmission, World.write, World.endTransmission,
      deviceStore, DS3231_ADDRESS, hp]

theorem writeRegister_present (reg data : Nat) (w : World) :
    (writeRegister reg data w).present = w.present := by
  cases hp : w.present <;>
    simp [writeRegister, World.beginTransmission, World.write, World.endTransmission,
      deviceStore, DS3231_ADDRESS, hp]

theorem readRegister_fst (reg : Nat) (w : World) :
    (readRegister reg w).1 = if w.present = true then u8 (w.regs (u8 reg)) else u8 w.uninit := by
  cases hp : w.present <;>
    simp [readRegister, World.beginTransmission, World.write, World.endTransmission,
      World.requestFrom, deviceStore, readLoop, DS3231_ADDRESS, hp]

theorem readRegister_regs (reg : Nat) (w : World) :
    (readRegister reg w).2.regs = w.regs := by
  cases hp : w.present <;>
    simp [readRegister, World.beginTransmission, World.write, World.endTransmission,
      World.requestFrom, deviceStore, DS3231_ADDRESS, hp]

theorem readRegister_present (reg : Nat) (w : World) :
    (readRegister reg w).2.present = w.present := by
  cases hp : w.present <;>
    simp [readRegister, World.beginTransmission, World.write, World.endTransmission,
      World.requestFrom, deviceStore, DS3231_ADDRESS, hp]

theorem u8_u8 (n : Nat) : u8 (u8 n) = u8 n := by
  simp [u8]

theorem readRegister_writeRegister (reg data : Nat) (w : World)
    (hreg : reg < 256) (hp : w.present = true) :
    (readRegister reg (writeRegister reg data w)).1 = u8 data := by
  have hr : u8 reg = reg := Nat.mod_eq_of_lt hreg
  simp [readRegister_fst, writeRegister_regs, writeRegister_present, hp, hr, u8_u8]

/-! ## Facts about the bytes the write operations build -/

theorem u8_encodeSeconds (v : Nat) : u8 (encodeSeconds v) = encodeSeconds v := by
  simp [encodeSeconds, u8_u8]

theorem u8_encodeMinutes (v : Nat) : u8 (encodeMinutes v) = encodeMinutes v := by
  simp [encodeMinutes, u8_u8]

theorem u8_encodeHours (hd : HOURS) : u8 (encodeHours hd) = encodeHours hd := by
  unfold encodeHours
  split_ifs <;> simp only [u8_u8]

theorem u8_encodeDay (v : Nat) : u8 (encodeDay v) = encodeDay v := by
  simp [encodeDay, u8_u8]

theorem u8_encodeDate (v : Nat) : u8 (encodeDate v) = encodeDate v := by
  simp [encodeDate, u8_u8]

theorem u8_encodeMonth (v : Nat) : u8 (encodeMonth v) = encodeMonth v := by
  simp [encodeMonth, u8_u8]

theorem u8_encodeYear (v : Nat) : u8 (encodeYear v) = encodeYear v := by
  simp [encodeYear, u8_u8]

/-- In 24-hour format the byte built by `writeHours` does not depend on `hour_am_pm`. -/
theorem encodeHours_24_amPm (h a : Nat) :
    encodeHours ⟨h, a, DS3231_HOURS_24_FORMAT⟩ = encodeHours ⟨h, 0, DS3231_HOURS_24_FORMAT⟩ := by
  simp [encodeHours, DS3231_HOURS_24_FORMAT, DS3231_HOURS_12_FORMAT]

/-- What the hours register holds after `writeHours`, and what `readHours` then returns. -/
theorem readHours_writeHours (hd : HOURS) (w : World) (hp : w.present = true) :
    (writeHours hd w).regs DS3231_HOURS_REG = encodeHours hd ∧
    (readHours (writeHours hd w)).1 = decodeHours (encodeHours hd) := by
  constructor
  · have h2 : u8 DS3231_HOURS_REG = DS3231_HOURS_REG := by decide
    simp [writeHours, writeRegister_regs, hp, h2, u8_encodeHours]
  · simp only [readHours, writeHours]
    rw [readRegister_writeRegister _ _ _ (by decide) hp, u8_encodeHours]

theorem writeRegister_writesByte (reg data : Nat) (hreg : u8 reg = reg) (hdata : u8 data = data) :
    WritesByte (writeRegister reg data) reg data := by
  intro w
  refine ⟨?_, ?_, ?_⟩
  · rw [writeRegister_sent, hreg, hdata]
  · intro a ha
    rw [writeRegister_regs, hreg]
    simp [ha]
  · intro hp
    rw [writeRegister_regs, hreg, hdata]
    simp [hp]

theorem writeSeconds_writesByte (sec : Nat) :
    WritesByte (writeSeconds sec) DS3231_SECONDS_REG (encodeSeconds sec) :=
  writeRegister_writesByte _ _ (by decide) (u8_encodeSeconds sec)

theorem writeMinutes_writesByte (mins : Nat) :
    WritesByte (writeMinutes mins) DS3231_MINUTES_REG (encodeMinutes mins) :=
  writeRegister_writesByte _ _ (by decide) (u8_encodeMinutes mins)

theorem writeHours_writesByte (hd : HOURS) :
    WritesByte (writeHours hd) DS3231_HOURS_REG (encodeHours hd) :=
  writeRegister_writesByte _ _ (by decide) (u8_encodeHours hd)

theorem writeDay_writesByte (day : Nat) :
    WritesByte (writeDay day) DS3231_DAY_REG (encodeDay day) :=
  writeRegister_writesByte _ _ (by decide) (u8_encodeDay day)

theorem writeDate_writesByte (date : Nat) :
    WritesByte (writeDate date) DS3231_DATE_REG (encodeDate date) :=
  writeRegister_writesByte _ _ (by decide) (u8_encodeDate date)

theorem writeMonth_writesByte (month : Nat) :
    WritesByte (writeMonth month) DS3231_CENTURY_MONTH_REG (encodeMonth month) :=
  writeRegister_writesByte _ _ (by decide) (u8_encodeMonth month)

theorem writeYear_writesByte (year : Nat) :
    WritesByte (writeYear year) DS3231_YEAR_REG (encodeYear year) :=
  writeRegister_writesByte _ _ (by decide) (u8_encodeYear year)

/-! ## Reading back what a single-field write stored -/

theorem readSeconds_writeSeconds (v : Nat) (w : World) (hp : w.present = true) :
    (readSeconds (writeSeconds v w)).1 = decodeSeconds (encodeSeconds v) := by
  simp only [readSeconds, writeSeconds]
  rw [readRegister_writeRegister _ _ _ (by decide) hp, u8_encodeSeconds]

theorem readMinutes_writeMinutes (v : Nat) (w : World) (hp : w.present = true) :
    (readMinutes (writeMinutes v w)).1 = decodeMinutes (encodeMinutes v) := by
  simp only [readMinutes, writeMinutes]
  rw [readRegister_writeRegister _ _ _ (by decide) hp, u8_encodeMinutes]

theorem readDay_writeDay (v : Nat) (w : World) (hp : w.present = true) :
    (readDay (writeDay v w)).1 = decodeDay (encodeDay v) := by
  simp only [readDay, writeDay]
  rw [readRegister_writeRegister _ _ _ (by decide) hp, u8_encodeDay]

theorem readDate_writeDate (v : Nat) (w : World) (hp : w.present = true) :
    (readDate (writeDate v w)).1 = decodeDate (encodeDate v) := by
  simp only [readDate, writeDate]
  rw [readRegister_writeRegister _ _ _ (by decide) hp, u8_encodeDate]

theorem readMonth_writeMonth (v : Nat) (w : World) (hp : w.present = true) :
    (readMonth (writeMonth v w)).1 = decodeMonth (encodeMonth v) := by
  simp only [readMonth, writeMonth]
  rw [readRegister_writeRegister _ _ _ (by decide) hp, u8_encodeMonth]

theorem readYear_writeYear (v : Nat) (w : World) (hp : w.present = true) :
    (readYear (writeYear v w)).1 = decodeYear (encodeYear v) := by
  simp only [readYear, writeYear]
  rw [readRegister_writeRegister _ _ _ (by decide) hp, u8_encodeYear]

/-! ## Round trips of the encoders alone -/

theorem decodeSeconds_encodeSeconds (v : Nat) (hv : v ≤ 59) :
    decodeSeconds (encodeSeconds v) = v := by
  interval_cases v <;> decide

theorem decodeMinutes_encodeMinutes (v : Nat) (hv : v ≤ 59) :
    decodeMinutes (encodeMinutes v) = v := by
  interval_cases v <;> decide

theorem decodeDay_encodeDay (v : Nat) (hv : v ≤ 6) : decodeDay (encodeDay v) = v := by
  interval_cases v <;> decide

theorem decodeDate_encodeDate (v : Nat) (hlo : 1 ≤ v) (hv : v ≤ 31) :
    decodeDate (encodeDate v) = v := by
  interval_cases v <;> decide

theorem decodeMonth_encodeMonth (v : Nat) (hlo : 1 ≤ v) (hv : v ≤ 12) :
    decodeMonth (encodeMonth v) = v := by
  interval_cases v <;> decide

theorem decodeYear_encodeYear (v : Nat) (hv : v ≤ 99) : decodeYear (encodeYear v) = v := by
  interval_cases v <;> decide

/-! ## The composite operations on a present device -/

theorem u8_regs :
    u8 DS3231_SECONDS_REG = DS3231_SECONDS_REG ∧ u8 DS3231_MINUTES_REG = DS3231_MINUTES_REG ∧
      u8 DS3231_HOURS_REG = DS3231_HOURS_REG ∧ u8 DS3231_DAY_REG = DS3231_DAY_REG ∧
      u8 DS3231_DATE_REG = DS3231_DATE_REG ∧
      u8 DS3231_CENTURY_MONTH_REG = DS3231_CENTURY_MONTH_REG ∧
      u8 DS3231_YEAR_REG = DS3231_YEAR_REG := by
  decide

/-- What `readTime` returns on a present device, in terms of the register file. -/
theorem readTime_fst (w : World) (hp : w.present = true) :
    (readTime w).1 =
      { seconds := decodeSeconds (u8 (w.regs DS3231_SECONDS_REG)),
        minutes := decodeMinutes (u8 (w.regs DS3231_MINUTES_REG)),
        hour_data := decodeHours (u8 (w.regs DS3231_HOURS_REG)) } := by
  obtain ⟨h0, h1, h2, -⟩ := u8_regs
  simp [readTime, readSeconds, readMinutes, readHours, readRegister_fst, readRegister_regs,
    readRegister_present, hp, h0, h1, h2]

/-- What `readFullDate` returns on a present device, in terms of the register file. -/
theorem readFullDate_fst (w : World) (hp : w.present = true) :
    (readFullDate w).1 =
      { day := decodeDay (u8 (w.regs DS3231_DAY_REG)),
        date := decodeDate (u8 (w.regs DS3231_DATE_REG)),
        month := decodeMonth (u8 (w.regs DS3231_CENTURY_MONTH_REG)),
        year := decodeYear (u8 (w.regs DS3231_YEAR_REG)),
        century := decodeCentury (u8 (w.regs DS3231_CENTURY_MONTH_REG)) } := by
  obtain ⟨-, -, -, h3, h4, h5, h6⟩ := u8_regs
  simp [readFullDate, readDay, readDate, readMonth, readYear, readCentury, readRegister_fst,
    readRegister_regs, readRegister_present, hp, h3, h4, h5, h6]

/-- The registers a present device holds after `writeTime`. -/
theorem writeTime_regs (t : TIME) (w : World) (hp : w.present = true) :
    (writeTime t w).present = true ∧
      (writeTime t w).regs DS3231_SECONDS_REG = encodeSeconds t.seconds ∧
      (writeTime t w).regs DS3231_MINUTES_REG = encodeMinutes t.minutes ∧
      (writeTime t w).regs DS3231_HOURS_REG = encodeHours t.hour_data := by
  obtain ⟨h0, h1, h2, -⟩ := u8_regs
  have n01 : DS3231_SECONDS_REG ≠ DS3231_MINUTES_REG := by decide
  have n02 : DS3231_SECONDS_REG ≠ DS3231_HOURS_REG := by decide
  have n12 : DS3231_MINUTES_REG ≠ DS3231_HOURS_REG := by decide
  simp [writeTime, writeSeconds, writeMinutes, writeHours, writeRegister_regs,
    writeRegister_present, hp, h0, h1, h2, n01, n02, n12, u8_encodeSeconds, u8_encodeMinutes,
    u8_encodeHours]

/-- The registers a present device holds after `writeFullDate`. -/
theorem writeFullDate_regs (d : DATE) (w : World) (hp : w.present = true) :
    (writeFullDate d w).present = true ∧
      (writeFullDate d w).regs DS3231_DAY_REG = encodeDay d.day ∧
      (writeFullDate d w).regs DS3231_DATE_REG = encodeDate d.date ∧
      (writeFullDate d w).regs DS3231_CENTURY_MONTH_REG = encodeMonth d.month ∧
      (writeFullDate d w).regs DS3231_YEAR_REG = encodeYear d.year := by
  obtain ⟨-, -, -, h3, h4, h5, h6⟩ := u8_regs
  have n34 : DS3231_DAY_REG ≠ DS3231_DATE_REG := by decide
  have n35 : DS3231_DAY_REG ≠ DS3231_CENTURY_MONTH_REG := by decide
  have n36 : DS3231_DAY_REG ≠ DS3231_YEAR_REG := by decide
  have n45 : DS3231_DATE_REG ≠ DS3231_CENTURY_MONTH_REG := by decide
  have n46 : DS3231_DATE_REG ≠ DS3231_YEAR_REG := by decide
  have n56 : DS3231_CENTURY_MONTH_REG ≠ DS3231_YEAR_REG := by decide
  simp [writeFullDate, writeDay, writeDate, writeMonth, writeYear, writeRegister_regs,
    writeRegister_present, hp, h3, h4, h5, h6, n34, n35, n36, n45, n46, n56, u8_encodeDay,
    u8_encodeDate, u8_encodeMonth, u8_encodeYear]

theorem decodeHours_encodeHours_12 (h amPm : Nat) (hlo : 1 ≤ h) (hhi : h ≤ 12)
    (ha : amPm = DS3231_HOURS_AM ∨ amPm = DS3231_HOURS_PM) :
    decodeHours (encodeHours ⟨h, amPm, DS3231_HOURS_12_FORMAT⟩)
      = ⟨h, amPm, DS3231_HOURS_12_FORMAT⟩ := by
  rcases ha with rfl | rfl <;> interval_cases h <;> decide

theorem decodeHours_encodeHours_24 (h amPm : Nat) (hhi : h ≤ 23) :
    decodeHours (encodeHours ⟨h, amPm, DS3231_HOURS_24_FORMAT⟩)
      = ⟨h, 0, DS3231_HOURS_24_FORMAT⟩ := by
  rw [encodeHours_24_amPm]
  interval_cases h <;> decide

/-! ## Round trips of the hours encoding -/

/-- C1. Hours round trip, 12-hour format: for every hour 1..12 and AM/PM flag in {AM, PM},
the byte `writeHours` builds decodes to the same `HOURS` value; on a present device the
hours register holds that byte after `writeHours` and `readHours` returns the value
written. -/
theorem hours_round_trip_12_hour (h amPm : Nat) (hlo : 1 ≤ h) (hhi : h ≤ 12)
    (ha : amPm = DS3231_HOURS_AM ∨ amPm = DS3231_HOURS_PM) :
    decodeHours (encodeHours ⟨h, amPm, DS3231_HOURS_12_FORMAT⟩)
        = ⟨h, amPm, DS3231_HOURS_12_FORMAT⟩ ∧
      ∀ w : World, w.present = true →
        (writeHours ⟨h, amPm, DS3231_HOURS_12_FORMAT⟩ w).regs DS3231_HOURS_REG
            = encodeHours ⟨h, amPm, DS3231_HOURS_12_FORMAT⟩ ∧
          (readHours (writeHours ⟨h, amPm, DS3231_HOURS_12_FORMAT⟩ w)).1
            = ⟨h, amPm, DS3231_HOURS_12_FORMAT⟩ := by
  have pure := decodeHours_encodeHours_12 h amPm hlo hhi ha
  refine ⟨pure, fun w hp => ?_⟩
  have hs := readHours_writeHours ⟨h, amPm, DS3231_HOURS_12_FORMAT⟩ w hp
  exact ⟨hs.1, hs.2.trans pure⟩

/-- Witness of C1 at 12 PM on `world0`. -/
theorem hours_round_trip_12_hour_witness :
    (1 ≤ 12 ∧ 12 ≤ 12 ∧ world0.present = true) ∧
      (readHours (writeHours ⟨12, DS3231_HOURS_PM, DS3231_HOURS_12_FORMAT⟩ world0)).1
        = ⟨12, DS3231_HOURS_PM, DS3231_HOURS_12_FORMAT⟩ :=
  ⟨by decide,
    ((hours_round_trip_12_hour 12 DS3231_HOURS_PM (by decide) (by decide) (Or.inr rfl)).2
      world0 rfl).2⟩

/-- C2. Hours round trip, 24-hour format: for every hour 0..23 and any AM/PM value
supplied, the byte `writeHours` builds decodes to the same hour and to the 24-hour format;
on a present device `readHours` after `writeHours` returns that hour and format. -/
theorem hours_round_trip_24_hour (h amPm : Nat) (hhi : h ≤ 23) :
    ((decodeHours (encodeHours ⟨h, amPm, DS3231_HOURS_24_FORMAT⟩)).hour = h ∧
      (decodeHours (encodeHours ⟨h, amPm, DS3231_HOURS_24_FORMAT⟩)).hour_12_24
        = DS3231_HOURS_24_FORMAT) ∧
      ∀ w : World, w.present = true →
        (readHours (writeHours ⟨h, amPm, DS3231_HOURS_24_FORMAT⟩ w)).1.hour = h ∧
          (readHours (writeHours ⟨h, amPm, DS3231_HOURS_24_FORMAT⟩ w)).1.hour_12_24
            = DS3231_HOURS_24_FORMAT := by
  have pure : (decodeHours (encodeHours ⟨h, amPm, DS3231_HOURS_24_FORMAT⟩)).hour = h ∧
      (decodeHours (encodeHours ⟨h, amPm, DS3231_HOURS_24_FORMAT⟩)).hour_12_24
        = DS3231_HOURS_24_FORMAT := by
    rw [decodeHours_encodeHours_24 h amPm hhi]
    exact ⟨rfl, rfl⟩
  refine ⟨pure, fun w hp => ?_⟩
  rw [(readHours_writeHours ⟨h, amPm, DS3231_HOURS_24_FORMAT⟩ w hp).2]
  exact pure

/-- Witness of C2 at hour 23 with a stray AM/PM value on `world0`. -/
theorem hours_round_trip_24_hour_witness :
    23 ≤ 23 ∧ world0.present = true ∧
      (readHours (writeHours ⟨23, 7, DS3231_HOURS_24_FORMAT⟩ world0)).1.hour = 23 :=
  ⟨by decide, rfl, (((hours_round_trip_24_hour 23 7 (by decide)).2) world0 rfl).1⟩

/-! ## Round trips of the simple fields -/

/-- C3. Simple-field round trip: for every value in the valid range of the field, the byte
the write operation builds decodes to the value, and on a present device the read operation
after the write operation returns the value; for seconds and minutes (0..59), date (1..31),
month (1..12), year (0..99) and day of week (0..6). -/
theorem simple_field_round_trip :
    (∀ v : Nat, v ≤ 59 → decodeSeconds (encodeSeconds v) = v ∧
        ∀ w : World, w.present = true → (readSeconds (writeSeconds v w)).1 = v) ∧
      (∀ v : Nat, v ≤ 59 → decodeMinutes (encodeMinutes v) = v ∧
        ∀ w : World, w.present = true → (readMinutes (writeMinutes v w)).1 = v) ∧
      (∀ v : Nat, 1 ≤ v → v ≤ 31 → decodeDate (encodeDate v) = v ∧
        ∀ w : World, w.present = true → (readDate (writeDate v w)).1 = v) ∧
      (∀ v : Nat, 1 ≤ v → v ≤ 12 → decodeMonth (encodeMonth v) = v ∧
        ∀ w : World, w.present = true → (readMonth (writeMonth v w)).1 = v) ∧
      (∀ v : Nat, v ≤ 99 → decodeYear (encodeYear v) = v ∧
        ∀ w : World, w.present = true → (readYear (writeYear v w)).1 = v) ∧
      (∀ v : Nat, v ≤ 6 → decodeDay (encodeDay v) = v ∧
        ∀ w : World, w.present = true → (readDay (writeDay v w)).1 = v) := by
  refine ⟨?_, ?_, ?_, ?_, ?_, ?_⟩
  · intro v hv
    have e := decodeSeconds_encodeSeconds v hv
    exact ⟨e, fun w hp => (readSeconds_writeSeconds v w hp).trans e⟩
  · intro v hv
    have e := decodeMinutes_encodeMinutes v hv
    exact ⟨e, fun w hp => (readMinutes_writeMinutes v w hp).trans e⟩
  · intro v hlo hv
    have e := decodeDate_encodeDate v hlo hv
    exact ⟨e, fun w hp => (readDate_writeDate v w hp).trans e⟩
  · intro v hlo hv
    have e := decodeMonth_encodeMonth v hlo hv
    exact ⟨e, fun w hp => (readMonth_writeMonth v w hp).trans e⟩
  · intro v hv
    have e := decodeYear_encodeYear v hv
    exact ⟨e, fun w hp => (readYear_writeYear v w hp).trans e⟩
  · intro v hv
    have e := decodeDay_encodeDay v hv
    exact ⟨e, fun w hp => (readDay_writeDay v w hp).trans e⟩

/-- Witness of C3: the largest value of each field, written to and read from `world0`. -/
theorem simple_field_round_trip_witness :
    (readSeconds (writeSeconds 59 world0)).1 = 59 ∧
      (readMinutes (writeMinutes 59 world0)).1 = 59 ∧
      (readDate (writeDate 31 world0)).1 = 31 ∧
      (readMonth (writeMonth 12 world0)).1 = 12 ∧
      (readYear (writeYear 99 world0)).1 = 99 ∧
      (readDay (writeDay 6 world0)).1 = 6 :=
  ⟨(simple_field_round_trip.1 59 (by decide)).2 world0 rfl,
    (simple_field_round_trip.2.1 59 (by decide)).2 world0 rfl,
    (simple_field_round_trip.2.2.1 31 (by decide) (by decide)).2 world0 rfl,
    (simple_field_round_trip.2.2.2.1 12 (by decide) (by decide)).2 world0 rfl,
    (simple_field_round_trip.2.2.2.2.1 99 (by decide)).2 world0 rfl,
    (simple_field_round_trip.2.2.2.2.2 6 (by decide)).2 world0 rfl⟩

/-! ## Composite write, then read -/

/-- C4, as stated, fails: the valid date (Wednesday, 15 June, year 24, century 1) written
with `writeFullDate` to a present device and read with `readFullDate` comes back with
century 0, so it is not the date written. -/
theorem full_date_century_not_read_back :
    (⟨2, 15, 6, 24, 1⟩ : DATE).valid ∧ worldFF.present = true ∧
      (readFullDate (writeFullDate ⟨2, 15, 6, 24, 1⟩ worldFF)).1 = ⟨2, 15, 6, 24, 0⟩ ∧
      (readFullDate (writeFullDate ⟨2, 15, 6, 24, 1⟩ worldFF)).1 ≠ ⟨2, 15, 6, 24, 1⟩ := by
  decide

/-- C4, amended. For every valid date and every prior state of a present device,
`readFullDate` after `writeFullDate` returns the day, date, month and year that were
written; `writeFullDate` writes no century, and the century read back is 0, the bit 7 of
the byte `writeMonth` stored (so all five fields agree exactly when the century written
is 0). -/
theorem full_date_write_then_read (d : DATE) (w : World) (hd : d.valid)
    (hp : w.present = true) :
    (readFullDate (writeFullDate d w)).1
      = { day := d.day, date := d.date, month := d.month, year := d.year, century := 0 } := by
  obtain ⟨hday, ⟨hdl, hdh⟩, ⟨hml, hmh⟩, hy, -⟩ := hd
  obtain ⟨hp2, r3, r4, r5, r6⟩ := writeFullDate_regs d w hp
  rw [readFullDate_fst _ hp2, r3, r4, r5, r6, u8_encodeDay, u8_encodeDate, u8_encodeMonth,
    u8_encodeYear, decodeDay_encodeDay _ hday, decodeDate_encodeDate _ hdl hdh,
    decodeMonth_encodeMonth _ hml hmh, decodeYear_encodeYear _ hy]
  have hc : decodeCentury (encodeMonth d.month) = 0 := by
    generalize d.month = m at hml hmh
    interval_cases m <;> decide
  rw [hc]

/-- Witness of the amended C4 on a device whose century bit was set beforehand. -/
theorem full_date_write_then_read_witness :
    ((⟨6, 31, 12, 99, 0⟩ : DATE).valid ∧ worldFF.present = true) ∧
      (readFullDate (writeFullDate ⟨6, 31, 12, 99, 0⟩ worldFF)).1 = ⟨6, 31, 12, 99, 0⟩ :=
  ⟨by decide, full_date_write_then_read ⟨6, 31, 12, 99, 0⟩ worldFF (by decide) rfl⟩

/-- C5. Composite time write-then-read: for every valid time and every prior state of a
present device, `readTime` after `writeTime` returns the seconds, minutes, hour and format
that were written, and the AM/PM flag that was written whenever the format is 12-hour. -/
theorem time_write_then_read (t : TIME) (w : World) (ht : t.valid) (hp : w.present = true) :
    (readTime (writeTime t w)).1.seconds = t.seconds ∧
      (readTime (writeTime t w)).1.minutes = t.minutes ∧
      (readTime (writeTime t w)).1.hour_data.hour = t.hour_data.hour ∧
      (readTime (writeTime t w)).1.hour_data.hour_12_24 = t.hour_data.hour_12_24 ∧
      (t.hour_data.hour_12_24 = DS3231_HOURS_12_FORMAT →
        (readTime (writeTime t w)).1.hour_data.hour_am_pm = t.hour_data.hour_am_pm) := by
  obtain ⟨sec, mins, ⟨hour, am_pm, fmt⟩⟩ := t
  obtain ⟨hs, hm, hh⟩ := ht
  obtain ⟨hp2, r0, r1, r2⟩ := writeTime_regs ⟨sec, mins, ⟨hour, am_pm, fmt⟩⟩ w hp
  rw [readTime_fst _ hp2, r0, r1, r2, u8_encodeSeconds, u8_encodeMinutes, u8_encodeHours,
    decodeSeconds_encodeSeconds _ hs, decodeMinutes_encodeMinutes _ hm]
  rcases hh with ⟨hf, hlo, hhi, ha⟩ | ⟨hf, hhi⟩
  · have hf12 : fmt = DS3231_HOURS_12_FORMAT := hf
    subst hf12
    rw [decodeHours_encodeHours_12 hour am_pm hlo hhi ha]
    exact ⟨rfl, rfl, rfl, rfl, fun _ => rfl⟩
  · have hf24 : fmt = DS3231_HOURS_24_FORMAT := hf
    subst hf24
    rw [decodeHours_encodeHours_24 hour am_pm hhi]
    have hne : DS3231_HOURS_24_FORMAT ≠ DS3231_HOURS_12_FORMAT := by decide
    exact ⟨rfl, rfl, rfl, rfl, fun h => absurd h hne⟩

/-- Witness of C5: 11:59:58 PM in 12-hour format, on a device holding 0xFF everywhere. -/
theorem time_write_then_read_witness :
    ((⟨58, 59, ⟨11, 1, 1⟩⟩ : TIME).valid ∧ worldFF.present = true) ∧
      (readTime (writeTime ⟨58, 59, ⟨11, 1, 1⟩⟩ worldFF)).1.seconds = 58 ∧
      (readTime (writeTime ⟨58, 59, ⟨11, 1, 1⟩⟩ worldFF)).1.hour_data.hour = 11 :=
  ⟨by decide,
    (time_write_then_read ⟨58, 59, ⟨11, 1, 1⟩⟩ worldFF (by decide) rfl).1,
    (time_write_then_read ⟨58, 59, ⟨11, 1, 1⟩⟩ worldFF (by decide) rfl).2.2.1⟩

/-! ## Transport errors -/

/-- C6, evaluated on the code. On a bus where no device answers, the one-byte request of
`readRegister` delivers nothing, the receive loop does not run, and `readRegister` returns
the content of its uninitialised local (here 0x59) as if it were the register value;
`readSeconds` decodes it to 59, the same result a present device whose seconds register
holds 0x59 gives.  No error reaches the caller. -/
theorem readRegister_no_byte_returns_uninitialised :
    ((((worldAbsent.beginTransmission DS3231_ADDRESS).write DS3231_SECONDS_REG).endTransmission).requestFrom
        DS3231_ADDRESS 1).rxBuffer = [] ∧
      (readRegister DS3231_SECONDS_REG worldAbsent).1 = 0x59 ∧
      (readSeconds worldAbsent).1 = 59 ∧
      (readSeconds (writeSeconds 59 world0)).1 = 59 := by
  decide

/-! ## Address map and frame -/

/-- C7. Address map and frame: for every input value and every state, each single-field
write performs exactly one register write, at the address fixed for the field (seconds
0x00, minutes 0x01, hours 0x02, day 0x03, date 0x04, month 0x05, year 0x06), and leaves
every other register unchanged. -/
theorem single_field_write_address_and_frame (v : Nat) (hd : HOURS) :
    WritesByte (writeSeconds v) 0x00 (encodeSeconds v) ∧
      WritesByte (writeMinutes v) 0x01 (encodeMinutes v) ∧
      WritesByte (writeHours hd) 0x02 (encodeHours hd) ∧
      WritesByte (writeDay v) 0x03 (encodeDay v) ∧
      WritesByte (writeDate v) 0x04 (encodeDate v) ∧
      WritesByte (writeMonth v) 0x05 (encodeMonth v) ∧
      WritesByte (writeYear v) 0x06 (encodeYear v) :=
  ⟨writeSeconds_writesByte v, writeMinutes_writesByte v, writeHours_writesByte hd,
    writeDay_writesByte v, writeDate_writesByte v, writeMonth_writesByte v,
    writeYear_writesByte v⟩

/-! ## Encoding of the hours byte -/

/-- C8, as stated, fails: `writeHours` with hour 23 in 24-hour format builds the byte 0x23
and a present device then holds 0x23, not 0x43, in its hours register. -/
theorem writeHours_23_24_hour_is_not_0x43 :
    encodeHours ⟨23, DS3231_HOURS_AM, DS3231_HOURS_24_FORMAT⟩ = 0x23 ∧
      (writeHours ⟨23, DS3231_HOURS_AM, DS3231_HOURS_24_FORMAT⟩ world0).regs DS3231_HOURS_REG
        = 0x23 ∧
      (writeHours ⟨23, DS3231_HOURS_AM, DS3231_HOURS_24_FORMAT⟩ world0).regs DS3231_HOURS_REG
        ≠ 0x43 ∧
      (writeHours ⟨23, DS3231_HOURS_AM, DS3231_HOURS_24_FORMAT⟩ world0).sent
        = [(DS3231_ADDRESS, [DS3231_HOURS_REG, 0x23])] := by
  decide

/-- C8, amended. `writeHours` called with hour 23 in 24-hour format writes the byte 0x23
(0b00100011: format bit 6 clear, tens-of-20 bit 5 set, low nibble 3) to the hours register,
whatever AM/PM value is supplied. -/
theorem writeHours_23_24_hour (amPm : Nat) :
    WritesByte (writeHours ⟨23, amPm, DS3231_HOURS_24_FORMAT⟩) DS3231_HOURS_REG 0x23 ∧
      Nat.testBit 0x23 6 = false ∧ Nat.testBit 0x23 5 = true ∧ 0x23 &&& 0x0F = 3 := by
  have e : encodeHours ⟨23, amPm, DS3231_HOURS_24_FORMAT⟩ = 0x23 := by
    rw [encodeHours_24_amPm]
    decide
  have hw := writeHours_writesByte ⟨23, amPm, DS3231_HOURS_24_FORMAT⟩
  rw [e] at hw
  exact ⟨hw, by decide, by decide, by decide⟩

/-- C9. 12-hour encoding layout: for every hour 1..12 and AM/PM flag in {AM, PM},
`writeHours` in 12-hour format writes the byte 0x40 + 0x20*amPm + 0x10*(1 if h >= 10 else 0)
+ (h mod 10) to the hours register; in that byte bit 6 is set, bit 5 equals the AM/PM flag,
bit 4 is set exactly when h >= 10, bit 7 is clear, and the low nibble is h for h < 10 and
h - 10 otherwise. -/
theorem writeHours_12_hour_layout (h amPm : Nat) (hlo : 1 ≤ h) (hhi : h ≤ 12)
    (ha : amPm = DS3231_HOURS_AM ∨ amPm = DS3231_HOURS_PM) :
    WritesByte (writeHours ⟨h, amPm, DS3231_HOURS_12_FORMAT⟩) DS3231_HOURS_REG
        (0x40 + 0x20 * amPm + 0x10 * (if h ≥ 10 then 1 else 0) + h % 10) ∧
      Nat.testBit (encodeHours ⟨h, amPm, DS3231_HOURS_12_FORMAT⟩) 6 = true ∧
      Nat.testBit (encodeHours ⟨h, amPm, DS3231_HOURS_12_FORMAT⟩) 5 = decide (amPm = DS3231_HOURS_PM) ∧
      Nat.testBit (encodeHours ⟨h, amPm, DS3231_HOURS_12_FORMAT⟩) 4 = decide (h ≥ 10) ∧
      Nat.testBit (encodeHours ⟨h, amPm, DS3231_HOURS_12_FORMAT⟩) 7 = false ∧
      encodeHours ⟨h, amPm, DS3231_HOURS_12_FORMAT⟩ &&& 0x0F = (if h < 10 then h else h - 10) := by
  have e : encodeHours ⟨h, amPm, DS3231_HOURS_12_FORMAT⟩
      = 0x40 + 0x20 * amPm + 0x10 * (if h ≥ 10 then 1 else 0) + h % 10 := by
    rcases ha with rfl | rfl <;> interval_cases h <;> decide
  have hw := writeHours_writesByte ⟨h, amPm, DS3231_HOURS_12_FORMAT⟩
  rw [e] at hw
  refine ⟨hw, ?_⟩
  rcases ha with rfl | rfl <;> interval_cases h <;> decide

/-- Witness of C9: 12 PM in 12-hour format is written as 0x72. -/
theorem writeHours_12_hour_layout_witness :
    (1 ≤ 12 ∧ 12 ≤ 12) ∧
      WritesByte (writeHours ⟨12, DS3231_HOURS_PM, DS3231_HOURS_12_FORMAT⟩) DS3231_HOURS_REG 0x72 :=
  ⟨by decide, (writeHours_12_hour_layout 12 DS3231_HOURS_PM (by decide) (by decide) (Or.inr rfl)).1⟩

/-! ## BCD packing -/

/-- C10. BCD packing: for every v in 0..99, each of `writeSeconds`, `writeMinutes`,
`writeDate`, `writeMonth` and `writeYear` writes the byte 16*(v div 10) + (v mod 10) to its
register; the low nibble of that byte is v mod 10 and the bits from bit 4 upward hold
v div 10. -/
theorem bcd_packing (v : Nat) (hv : v ≤ 99) :
    (WritesByte (writeSeconds v) DS3231_SECONDS_REG (16 * (v / 10) + v % 10) ∧
        WritesByte (writeMinutes v) DS3231_MINUTES_REG (16 * (v / 10) + v % 10) ∧
        WritesByte (writeDate v) DS3231_DATE_REG (16 * (v / 10) + v % 10) ∧
        WritesByte (writeMonth v) DS3231_CENTURY_MONTH_REG (16 * (v / 10) + v % 10) ∧
        WritesByte (writeYear v) DS3231_YEAR_REG (16 * (v / 10) + v % 10)) ∧
      (encodeSeconds v &&& 0x0F = v % 10 ∧ encodeSeconds v >>> 4 = v / 10) ∧
      (encodeMinutes v &&& 0x0F = v % 10 ∧ encodeMinutes v >>> 4 = v / 10) ∧
      (encodeDate v &&& 0x0F = v % 10 ∧ encodeDate v >>> 4 = v / 10) ∧
      (encodeMonth v &&& 0x0F = v % 10 ∧ encodeMonth v >>> 4 = v / 10) ∧
      (encodeYear v &&& 0x0F = v % 10 ∧ encodeYear v >>> 4 = v / 10) := by
  have es : encodeSeconds v = 16 * (v / 10) + v % 10 := by interval_cases v <;> decide
  have em : encodeMinutes v = 16 * (v / 10) + v % 10 := by interval_cases v <;> decide
  have ed : encodeDate v = 16 * (v / 10) + v % 10 := by interval_cases v <;> decide
  have eo : encodeMonth v = 16 * (v / 10) + v % 10 := by interval_cases v <;> decide
  have ey : encodeYear v = 16 * (v / 10) + v % 10 := by interval_cases v <;> decide
  have ws := writeSeconds_writesByte v
  have wm := writeMinutes_writesByte v
  have wd := writeDate_writesByte v
  have wo := writeMonth_writesByte v
  have wy := writeYear_writesByte v
  rw [es] at ws
  rw [em] at wm
  rw [ed] at wd
  rw [eo] at wo
  rw [ey] at wy
  refine ⟨⟨ws, wm, wd, wo, wy⟩, ?_⟩
  rw [es, em, ed, eo, ey]
  have nib : (16 * (v / 10) + v % 10) &&& 0x0F = v % 10 ∧ (16 * (v / 10) + v % 10) >>> 4 = v / 10 := by
    interval_cases v <;> decide
  exact ⟨nib, nib, nib, nib, nib⟩

/-- Witness of C10: `writeSeconds 59` writes 0x59. -/
theorem bcd_packing_witness :
    59 ≤ 99 ∧ WritesByte (writeSeconds 59) DS3231_SECONDS_REG 0x59 :=
  ⟨by decide, (bcd_packing 59 (by decide)).1.1⟩

/-! ## Single reads on a present device -/

theorem u8_of_lt (b : Nat) (hb : b < 256) : u8 b = b :=
  Nat.mod_eq_of_lt hb

theorem readSeconds_fst (w : World) (hp : w.present = true) :
    (readSeconds w).1 = decodeSeconds (u8 (w.regs DS3231_SECONDS_REG)) := by
  simp [readSeconds, readRegister_fst, hp, u8_regs.1]

theorem readMinutes_fst (w : World) (hp : w.present = true) :
    (readMinutes w).1 = decodeMinutes (u8 (w.regs DS3231_MINUTES_REG)) := by
  simp [readMinutes, readRegister_fst, hp, u8_regs.2.1]

theorem readHours_fst (w : World) (hp : w.present = true) :
    (readHours w).1 = decodeHours (u8 (w.regs DS3231_HOURS_REG)) := by
  simp [readHours, readRegister_fst, hp, u8_regs.2.2.1]

theorem readDate_fst (w : World) (hp : w.present = true) :
    (readDate w).1 = decodeDate (u8 (w.regs DS3231_DATE_REG)) := by
  simp [readDate, readRegister_fst, hp, u8_regs.2.2.2.2.1]

theorem readMonth_fst (w : World) (hp : w.present = true) :
    (readMonth w).1 = decodeMonth (u8 (w.regs DS3231_CENTURY_MONTH_REG)) := by
  simp [readMonth, readRegister_fst, hp, u8_regs.2.2.2.2.2.1]

theorem readYear_fst (w : World) (hp : w.present = true) :
    (readYear w).1 = decodeYear (u8 (w.regs DS3231_YEAR_REG)) := by
  simp [readYear, readRegister_fst, hp, u8_regs.2.2.2.2.2.2]

theorem readCentury_fst (w : World) (hp : w.present = true) :
    (readCentury w).1 = decodeCentury (u8 (w.regs DS3231_CENTURY_MONTH_REG)) := by
  simp [readCentury, readRegister_fst, hp, u8_regs.2.2.2.2.2.1]

/-! ## Decoding of the hours byte -/

/-- C11. Hours decode, format-dependent bit 5: for every byte b, `readHours` returns
hour_12_24 = bit 6 of b; when bit 6 is set it returns hour = (b & 0x0F) + 10*(bit 4) and
hour_am_pm = bit 5; when bit 6 is clear it returns hour = (b & 0x0F) + 10*(bit 4) +
20*(bit 5) and hour_am_pm = 0; flipping bit 7 of b does not change the result; and on a
present device whose hours register holds b, `readHours` returns that decoding. -/
theorem readHours_decode_layout (b : Nat) (hb : b < 256) :
    ((decodeHours b).hour_12_24 = bitOf b 6 ∧
        (bitOf b 6 = 1 →
          (decodeHours b).hour = (b &&& 0x0F) + 10 * bitOf b 4 ∧
            (decodeHours b).hour_am_pm = bitOf b 5) ∧
        (bitOf b 6 = 0 →
          (decodeHours b).hour = (b &&& 0x0F) + 10 * bitOf b 4 + 20 * bitOf b 5 ∧
            (decodeHours b).hour_am_pm = 0) ∧
        decodeHours (b ^^^ 0x80) = decodeHours b) ∧
      ∀ w : World, w.present = true → w.regs DS3231_HOURS_REG = b →
        (readHours w).1 = decodeHours b := by
  constructor
  · interval_cases b <;> decide
  · intro w hp hw
    rw [readHours_fst w hp, hw, u8_of_lt b hb]

/-- Witness of C11: the byte 0x72 in the hours register of `worldSet` reads as 12 PM in
12-hour format. -/
theorem readHours_decode_layout_witness :
    (0x72 < 256 ∧ worldSet.present = true ∧ worldSet.regs DS3231_HOURS_REG = 0x72) ∧
      (readHours worldSet).1 = decodeHours 0x72 ∧ decodeHours 0x72 = ⟨12, 1, 1⟩ :=
  ⟨by decide, (readHours_decode_layout 0x72 (by decide)).2 worldSet rfl rfl, by decide⟩

/-! ## Writes in 24-hour format and unvalidated input -/

/-- C12. The AM/PM value is ignored on 24-hour writes: for every hour and every two AM/PM
values, `writeHours` in 24-hour format builds the same byte, leaves the same state behind,
and writes to the hours register the byte that the hour alone determines (the one built
with AM/PM value 0), so bit 5 of it depends on the hour only. -/
theorem writeHours_24_hour_ignores_amPm (h a1 a2 : Nat) (w : World) :
    encodeHours ⟨h, a1, DS3231_HOURS_24_FORMAT⟩ = encodeHours ⟨h, a2, DS3231_HOURS_24_FORMAT⟩ ∧
      writeHours ⟨h, a1, DS3231_HOURS_24_FORMAT⟩ w = writeHours ⟨h, a2, DS3231_HOURS_24_FORMAT⟩ w ∧
      WritesByte (writeHours ⟨h, a1, DS3231_HOURS_24_FORMAT⟩) DS3231_HOURS_REG
        (encodeHours ⟨h, 0, DS3231_HOURS_24_FORMAT⟩) ∧
      Nat.testBit (encodeHours ⟨h, a1, DS3231_HOURS_24_FORMAT⟩) 5
        = Nat.testBit (encodeHours ⟨h, 0, DS3231_HOURS_24_FORMAT⟩) 5 := by
  have e1 := encodeHours_24_amPm h a1
  have e2 := encodeHours_24_amPm h a2
  have hw := writeHours_writesByte ⟨h, a1, DS3231_HOURS_24_FORMAT⟩
  rw [e1] at hw
  refine ⟨e1.trans e2.symm, ?_, hw, by rw [e1]⟩
  simp only [writeHours, e1, e2]

/-- C13. Writes do not validate their input: every write operation, for every input,
performs its register write; and `writeHours` with hour 25, AM, 12-hour format writes the
byte 0x6F, which `readHours` decodes to hour 15, PM, 12-hour format, not to the value
supplied: the tens digit 2 of the hour landed in the AM/PM bit 5. -/
theorem writes_do_not_validate :
    (∀ (v : Nat) (hd : HOURS),
        WritesByte (writeSeconds v) DS3231_SECONDS_REG (encodeSeconds v) ∧
          WritesByte (writeMinutes v) DS3231_MINUTES_REG (encodeMinutes v) ∧
          WritesByte (writeHours hd) DS3231_HOURS_REG (encodeHours hd) ∧
          WritesByte (writeDay v) DS3231_DAY_REG (encodeDay v) ∧
          WritesByte (writeDate v) DS3231_DATE_REG (encodeDate v) ∧
          WritesByte (writeMonth v) DS3231_CENTURY_MONTH_REG (encodeMonth v) ∧
          WritesByte (writeYear v) DS3231_YEAR_REG (encodeYear v)) ∧
      WritesByte (writeHours ⟨25, DS3231_HOURS_AM, DS3231_HOURS_12_FORMAT⟩) DS3231_HOURS_REG 0x6F ∧
      (readHours (writeHours ⟨25, DS3231_HOURS_AM, DS3231_HOURS_12_FORMAT⟩ world0)).1
        = ⟨15, DS3231_HOURS_PM, DS3231_HOURS_12_FORMAT⟩ ∧
      (readHours (writeHours ⟨25, DS3231_HOURS_AM, DS3231_HOURS_12_FORMAT⟩ world0)).1
        ≠ ⟨25, DS3231_HOURS_AM, DS3231_HOURS_12_FORMAT⟩ ∧
      Nat.testBit 0x6F 5 = true := by
  refine ⟨fun v hd => ⟨writeSeconds_writesByte v, writeMinutes_writesByte v,
    writeHours_writesByte hd, writeDay_writesByte v, writeDate_writesByte v,
    writeMonth_writesByte v, writeYear_writesByte v⟩, ?_, by decide, by decide, by decide⟩
  have e : encodeHours ⟨25, DS3231_HOURS_AM, DS3231_HOURS_12_FORMAT⟩ = 0x6F := by decide
  have hw := writeHours_writesByte ⟨25, DS3231_HOURS_AM, DS3231_HOURS_12_FORMAT⟩
  rw [e] at hw
  exact hw

/-- C14. 24-hour tens-digit policy: for every hour 0..23 (and any AM/PM value) the byte
`writeHours` writes in 24-hour format has low nibble h mod 10, bit 5 set exactly when
h >= 20, bit 4 set exactly when 10 <= h <= 19, and never both bits 4 and 5. -/
theorem writeHours_24_hour_tens_policy (h amPm : Nat) (hh : h ≤ 23) :
    WritesByte (writeHours ⟨h, amPm, DS3231_HOURS_24_FORMAT⟩) DS3231_HOURS_REG
        (encodeHours ⟨h, 0, DS3231_HOURS_24_FORMAT⟩) ∧
      encodeHours ⟨h, 0, DS3231_HOURS_24_FORMAT⟩ &&& 0x0F = h % 10 ∧
      Nat.testBit (encodeHours ⟨h, 0, DS3231_HOURS_24_FORMAT⟩) 5 = decide (20 ≤ h) ∧
      Nat.testBit (encodeHours ⟨h, 0, DS3231_HOURS_24_FORMAT⟩) 4 = decide (10 ≤ h ∧ h ≤ 19) ∧
      ¬(Nat.testBit (encodeHours ⟨h, 0, DS3231_HOURS_24_FORMAT⟩) 4 = true ∧
          Nat.testBit (encodeHours ⟨h, 0, DS3231_HOURS_24_FORMAT⟩) 5 = true) := by
  have hw := writeHours_writesByte ⟨h, amPm, DS3231_HOURS_24_FORMAT⟩
  rw [encodeHours_24_amPm] at hw
  refine ⟨hw, ?_⟩
  interval_cases h <;> decide

/-- Witness of C14: hours 9, 10, 20 and 23 are written as 0x09, 0x10, 0x20 and 0x23. -/
theorem writeHours_24_hour_tens_policy_witness :
    (9 ≤ 23 ∧ 10 ≤ 23 ∧ 20 ≤ 23 ∧ 23 ≤ 23) ∧
      WritesByte (writeHours ⟨9, 0, DS3231_HOURS_24_FORMAT⟩) DS3231_HOURS_REG 0x09 ∧
      WritesByte (writeHours ⟨10, 0, DS3231_HOURS_24_FORMAT⟩) DS3231_HOURS_REG 0x10 ∧
      WritesByte (writeHours ⟨20, 0, DS3231_HOURS_24_FORMAT⟩) DS3231_HOURS_REG 0x20 ∧
      WritesByte (writeHours ⟨23, 1, DS3231_HOURS_24_FORMAT⟩) DS3231_HOURS_REG 0x23 :=
  ⟨by decide, (writeHours_24_hour_tens_policy 9 0 (by decide)).1,
    (writeHours_24_hour_tens_policy 10 0 (by decide)).1,
    (writeHours_24_hour_tens_policy 20 0 (by decide)).1,
    (writeHours_24_hour_tens_policy 23 1 (by decide)).1⟩

/-! ## Range of the decoded hour -/

theorem bitOf_6_encodeHours (hd : HOURS) (hv : hd.valid) :
    bitOf (encodeHours hd) 6 = hd.hour_12_24 ∧
      decodeHours (encodeHours hd)
        = ⟨hd.hour, if hd.hour_12_24 = DS3231_HOURS_12_FORMAT then hd.hour_am_pm else 0,
            hd.hour_12_24⟩ := by
  obtain ⟨hour, am_pm, fmt⟩ := hd
  rcases hv with ⟨hf, hlo, hhi, ha⟩ | ⟨hf, hhi⟩
  · have hf12 : fmt = DS3231_HOURS_12_FORMAT := hf
    subst hf12
    have hlo2 : 1 ≤ hour := hlo
    have hhi2 : hour ≤ 12 := hhi
    have ha2 : am_pm = DS3231_HOURS_AM ∨ am_pm = DS3231_HOURS_PM := ha
    rcases ha2 with rfl | rfl <;> interval_cases hour <;> decide
  · have hf24 : fmt = DS3231_HOURS_24_FORMAT := hf
    subst hf24
    have hhi2 : hour ≤ 23 := hhi
    rw [encodeHours_24_amPm]
    show bitOf (encodeHours ⟨hour, 0, DS3231_HOURS_24_FORMAT⟩) 6 = DS3231_HOURS_24_FORMAT ∧
      decodeHours (encodeHours ⟨hour, 0, DS3231_HOURS_24_FORMAT⟩)
        = ⟨hour, 0, DS3231_HOURS_24_FORMAT⟩
    clear hf hhi
    interval_cases hour <;> decide

/-- C15, as stated, fails: the hours byte 0x3F has the format bit clear and decodes to hour
45; 0x40 has the format bit set and decodes to hour 0; 0x5F has it set and decodes to hour
25; and on a present device whose hours register holds 0xFF `readHours` returns hour 25 in
12-hour format. -/
theorem readHours_hour_out_of_range :
    (bitOf 0x3F 6 = 0 ∧ (decodeHours 0x3F).hour = 45) ∧
      (bitOf 0x40 6 = 1 ∧ (decodeHours 0x40).hour = 0) ∧
      (bitOf 0x5F 6 = 1 ∧ (decodeHours 0x5F).hour = 25) ∧
      (worldFF.present = true ∧ bitOf (worldFF.regs DS3231_HOURS_REG) 6 = 1 ∧
        (readHours worldFF).1 = ⟨25, DS3231_HOURS_PM, DS3231_HOURS_12_FORMAT⟩) := by
  decide

/-- C15, amended. For every byte held in the hours register, `readHours` returns an hour
in 0..45 when the format bit 6 is clear and in 0..25 when it is set; and for the byte
`writeHours` builds from a valid `HOURS` value, whose bit 6 is the format written, the hour
returned is in 0..23 when the format bit is clear and in 1..12 when it is set. -/
theorem readHours_hour_range (b : Nat) (hb : b < 256) (hd : HOURS) (hv : hd.valid) :
    ((bitOf b 6 = 0 → (decodeHours b).hour ≤ 45) ∧
        (bitOf b 6 = 1 → (decodeHours b).hour ≤ 25) ∧
        ∀ w : World, w.present = true → w.regs DS3231_HOURS_REG = b →
          (readHours w).1 = decodeHours b) ∧
      (bitOf (encodeHours hd) 6 = 0 → (decodeHours (encodeHours hd)).hour ≤ 23) ∧
      (bitOf (encodeHours hd) 6 = 1 →
        1 ≤ (decodeHours (encodeHours hd)).hour ∧ (decodeHours (encodeHours hd)).hour ≤ 12) := by
  refine ⟨⟨?_, ?_, ?_⟩, ?_⟩
  · interval_cases b <;> decide
  · interval_cases b <;> decide
  · intro w hp hw
    rw [readHours_fst w hp, hw, u8_of_lt b hb]
  · obtain ⟨h6, hdec⟩ := bitOf_6_encodeHours hd hv
    rw [h6, hdec]
    rcases hv with ⟨hf, hlo, hhi, -⟩ | ⟨hf, hhi⟩
    · refine ⟨fun h0 => ?_, fun _ => ⟨hlo, hhi⟩⟩
      rw [hf] at h0
      exact absurd h0 (by decide)
    · refine ⟨fun _ => hhi, fun h1 => ?_⟩
      rw [hf] at h1
      exact absurd h1 (by decide)

/-- Witness of the amended C15: byte 0x5F (hour 25 in 12-hour format) and the valid value
12 PM. -/
theorem readHours_hour_range_witness :
    (0x5F < 256 ∧ (⟨12, 1, 1⟩ : HOURS).valid) ∧
      (bitOf 0x5F 6 = 1 → (decodeHours 0x5F).hour ≤ 25) ∧
      (bitOf (encodeHours ⟨12, 1, 1⟩) 6 = 1 →
        1 ≤ (decodeHours (encodeHours ⟨12, 1, 1⟩)).hour ∧
          (decodeHours (encodeHours ⟨12, 1, 1⟩)).hour ≤ 12) :=
  ⟨by decide, (readHours_hour_range 0x5F (by decide) ⟨12, 1, 1⟩ (by decide)).1.2.1,
    (readHours_hour_range 0x5F (by decide) ⟨12, 1, 1⟩ (by decide)).2.2⟩

/-! ## Writing back what was read -/

/-- C16. Hours write is the inverse of hours read on well-formed bytes: for every
well-formed hours byte b, `writeHours` called with the value `readHours` decodes from b
writes exactly b to the hours register, also when that value was read from a present
device whose hours register holds b. -/
theorem writeHours_inverts_readHours (b : Nat) (hb : b < 256) (hwf : HoursByteWellFormed b) :
    encodeHours (decodeHours b) = b ∧
      WritesByte (writeHours (decodeHours b)) DS3231_HOURS_REG b ∧
      ∀ w : World, w.present = true → w.regs DS3231_HOURS_REG = b →
        WritesByte (writeHours (readHours w).1) DS3231_HOURS_REG b := by
  have e : encodeHours (decodeHours b) = b := by
    revert hwf
    interval_cases b <;> decide
  have hw := writeHours_writesByte (decodeHours b)
  rw [e] at hw
  refine ⟨e, hw, fun w hp hr => ?_⟩
  rw [readHours_fst w hp, hr, u8_of_lt b hb]
  exact hw

/-- Witness of C16: the byte 0x72 held by `worldSet` is read as 12 PM and written back as
0x72. -/
theorem writeHours_inverts_readHours_witness :
    (0x72 < 256 ∧ HoursByteWellFormed 0x72 ∧ worldSet.present = true ∧
        worldSet.regs DS3231_HOURS_REG = 0x72) ∧
      WritesByte (writeHours (readHours worldSet).1) DS3231_HOURS_REG 0x72 :=
  ⟨by decide, (writeHours_inverts_readHours 0x72 (by decide) (by decide)).2.2 worldSet rfl rfl⟩

/-! ## Composite writes as sequences of register writes -/

/-- C17. Composite writes are the sequential composition of the per-field writes in a
fixed order: for every time, `writeTime` is `writeSeconds`, then `writeMinutes`, then
`writeHours`, and it adds exactly the three frames of `writeTimeFrames` (addresses 0x00,
0x01, 0x02, in that order) to the bus log; for every date, `writeFullDate` is `writeDay`,
`writeDate`, `writeMonth`, `writeYear` and adds exactly the four frames of
`writeFullDateFrames` (addresses 0x03, 0x04, 0x05, 0x06, in that order). -/
theorem composite_writes_are_sequences (t : TIME) (d : DATE) (w : World) :
    (writeTime t w = writeHours t.hour_data (writeMinutes t.minutes (writeSeconds t.seconds w)) ∧
        (writeTime t w).sent = w.sent ++ writeTimeFrames t) ∧
      (writeFullDate d w
          = writeYear d.year (writeMonth d.month (writeDate d.date (writeDay d.day w))) ∧
        (writeFullDate d w).sent = w.sent ++ writeFullDateFrames d) := by
  obtain ⟨h0, h1, h2, h3, h4, h5, h6⟩ := u8_regs
  refine ⟨⟨rfl, ?_⟩, rfl, ?_⟩
  · simp only [writeTime, writeSeconds, writeMinutes, writeHours, writeRegister_sent, h0, h1,
      h2, u8_encodeSeconds, u8_encodeMinutes, u8_encodeHours, writeTimeFrames,
      List.append_assoc, List.singleton_append]
    rfl
  · simp only [writeFullDate, writeDay, writeDate, writeMonth, writeYear, writeRegister_sent,
      h3, h4, h5, h6, u8_encodeDay, u8_encodeDate, u8_encodeMonth, u8_encodeYear,
      writeFullDateFrames, List.append_assoc, List.singleton_append]
    rfl

/-! ## Century and month in register 0x05 -/

theorem decodeMonth_layout (b : Nat) (hb : b < 256) :
    decodeMonth b = (b &&& 0x0F) + 10 * bitOf b 4 ∧ decodeMonth b = decodeMonth (b % 128) := by
  interval_cases b <;> decide

theorem decodeCentury_layout (b : Nat) (hb : b < 256) : decodeCentury b = bitOf b 7 := by
  interval_cases b <;> decide

/-- C18. Century and month share register 0x05 without interfering on read: for every
byte b in that register `readMonth` returns (b & 0x0F) + 10*(bit 4 of b) and `readCentury`
returns bit 7 of b; a byte that differs from b only in bit 7 decodes to the same month, and
a byte that agrees with b in bit 7 decodes to the same century. -/
theorem month_and_century_share_register (b : Nat) (hb : b < 256) :
    (decodeMonth b = (b &&& 0x0F) + 10 * bitOf b 4 ∧ decodeCentury b = bitOf b 7) ∧
      (∀ c : Nat, c < 256 → c % 128 = b % 128 → decodeMonth c = decodeMonth b) ∧
      (∀ c : Nat, c < 256 → bitOf c 7 = bitOf b 7 → decodeCentury c = decodeCentury b) ∧
      ∀ w : World, w.present = true → w.regs DS3231_CENTURY_MONTH_REG = b →
        (readMonth w).1 = decodeMonth b ∧ (readCentury w).1 = decodeCentury b := by
  refine ⟨⟨(decodeMonth_layout b hb).1, decodeCentury_layout b hb⟩, ?_, ?_, ?_⟩
  · intro c hc hcb
    rw [(decodeMonth_layout c hc).2, (decodeMonth_layout b hb).2, hcb]
  · intro c hc hcb
    rw [decodeCentury_layout c hc, decodeCentury_layout b hb, hcb]
  · intro w hp hr
    rw [readMonth_fst w hp, readCentury_fst w hp, hr, u8_of_lt b hb]
    exact ⟨rfl, rfl⟩

/-- Witness of C18: `worldSet` holds 0x92 in register 0x05, read as month 12 and century 1;
0x12 differs from it only in bit 7 and decodes to the same month. -/
theorem month_and_century_share_register_witness :
    (0x92 < 256 ∧ worldSet.present = true ∧ worldSet.regs DS3231_CENTURY_MONTH_REG = 0x92) ∧
      ((readMonth worldSet).1 = decodeMonth 0x92 ∧ (readCentury worldSet).1 = decodeCentury 0x92) ∧
      decodeMonth 0x12 = decodeMonth 0x92 ∧ decodeMonth 0x92 = 12 ∧ decodeCentury 0x92 = 1 :=
  ⟨by decide, (month_and_century_share_register 0x92 (by decide)).2.2.2 worldSet rfl rfl,
    (month_and_century_share_register 0x92 (by decide)).2.1 0x12 (by decide) (by decide),
    by decide, by decide⟩

/-- C19. `writeMonth` overwrites the century bit: for every month 1..12 and every prior
state of a present device, after `writeMonth` register 0x05 has bit 7 clear and
`readCentury` returns 0; the same holds after `writeFullDate` of any valid date, whatever
its century field. -/
theorem writeMonth_clears_century (m : Nat) (d : DATE) (w : World) (hlo : 1 ≤ m) (hhi : m ≤ 12)
    (hd : d.valid) (hp : w.present = true) :
    (bitOf ((writeMonth m w).regs DS3231_CENTURY_MONTH_REG) 7 = 0 ∧
        (readCentury (writeMonth m w)).1 = 0) ∧
      (bitOf ((writeFullDate d w).regs DS3231_CENTURY_MONTH_REG) 7 = 0 ∧
        (readCentury (writeFullDate d w)).1 = 0) := by
  have key : ∀ k : Nat, 1 ≤ k → k ≤ 12 →
      bitOf (encodeMonth k) 7 = 0 ∧ decodeCentury (encodeMonth k) = 0 := by
    intro k hk1 hk2
    interval_cases k <;> decide
  obtain ⟨-, -, ⟨hml, hmh⟩, -, -⟩ := hd
  have hm := (writeMonth_writesByte m w).2.2 hp
  have hpm : (writeMonth m w).present = true := by
    rw [writeMonth, writeRegister_present]
    exact hp
  obtain ⟨hpd, -, -, r5, -⟩ := writeFullDate_regs d w hp
  rw [readCentury_fst _ hpm, readCentury_fst _ hpd, hm, r5, u8_encodeMonth, u8_encodeMonth]
  exact ⟨key m hlo hhi, key d.month hml hmh⟩

/-- Witness of C19: December written to a device whose register 0x05 held 0xFF, and a valid
date with century 1 written to the same device. -/
theorem writeMonth_clears_century_witness :
    (1 ≤ 12 ∧ 12 ≤ 12 ∧ (⟨6, 31, 12, 99, 1⟩ : DATE).valid ∧ worldFF.present = true ∧
        bitOf (worldFF.regs DS3231_CENTURY_MONTH_REG) 7 = 1) ∧
      (readCentury (writeMonth 12 worldFF)).1 = 0 ∧
      (readCentury (writeFullDate ⟨6, 31, 12, 99, 1⟩ worldFF)).1 = 0 :=
  ⟨by decide,
    (writeMonth_clears_century 12 ⟨6, 31, 12, 99, 1⟩ worldFF (by decide) (by decide) (by decide)
      rfl).1.2,
    (writeMonth_clears_century 12 ⟨6, 31, 12, 99, 1⟩ worldFF (by decide) (by decide) (by decide)
      rfl).2.2⟩

/-! ## No wrap-around in decoding -/

/-- C20. Decoding never wraps around: for every register byte b, the value each of
`readSeconds`, `readMinutes`, `readHours`, `readDate`, `readMonth` and `readYear` computes
in 8-bit arithmetic equals the same formula over unbounded numbers, none of them exceeds
165, and `readYear` returns 165 on 0xFF; on a present device holding b in the register
concerned the read operation returns that value. -/
theorem decoding_never_wraps (b : Nat) (hb : b < 256) :
    (decodeSeconds b = wideSeconds b ∧ decodeMinutes b = wideMinutes b ∧
        (decodeHours b).hour = wideHours b ∧ decodeDate b = wideDate b ∧
        decodeMonth b = wideMonth b ∧ decodeYear b = wideYear b) ∧
      (wideSeconds b ≤ 165 ∧ wideMinutes b ≤ 165 ∧ wideHours b ≤ 165 ∧ wideDate b ≤ 165 ∧
        wideMonth b ≤ 165 ∧ wideYear b ≤ 165) ∧
      (decodeYear 0xFF = 165 ∧ wideYear 0xFF = 165) ∧
      ∀ w : World, w.present = true →
        (w.regs DS3231_SECONDS_REG = b → (readSeconds w).1 = wideSeconds b) ∧
          (w.regs DS3231_MINUTES_REG = b → (readMinutes w).1 = wideMinutes b) ∧
          (w.regs DS3231_HOURS_REG = b → (readHours w).1.hour = wideHours b) ∧
          (w.regs DS3231_DATE_REG = b → (readDate w).1 = wideDate b) ∧
          (w.regs DS3231_CENTURY_MONTH_REG = b → (readMonth w).1 = wideMonth b) ∧
          (w.regs DS3231_YEAR_REG = b → (readYear w).1 = wideYear b) := by
  have eqs : decodeSeconds b = wideSeconds b ∧ decodeMinutes b = wideMinutes b ∧
      (decodeHours b).hour = wideHours b ∧ decodeDate b = wideDate b ∧
      decodeMonth b = wideMonth b ∧ decodeYear b = wideYear b := by
    interval_cases b <;> decide
  have bounds : wideSeconds b ≤ 165 ∧ wideMinutes b ≤ 165 ∧ wideHours b ≤ 165 ∧
      wideDate b ≤ 165 ∧ wideMonth b ≤ 165 ∧ wideYear b ≤ 165 := by
    interval_cases b <;> decide
  obtain ⟨es, em, eh, ed, eo, ey⟩ := eqs
  refine ⟨⟨es, em, eh, ed, eo, ey⟩, bounds, by decide, fun w hp => ⟨?_, ?_, ?_, ?_, ?_, ?_⟩⟩
  · intro hr
    rw [readSeconds_fst w hp, hr, u8_of_lt b hb, es]
  · intro hr
    rw [readMinutes_fst w hp, hr, u8_of_lt b hb, em]
  · intro hr
    rw [readHours_fst w hp, hr, u8_of_lt b hb, eh]
  · intro hr
    rw [readDate_fst w hp, hr, u8_of_lt b hb, ed]
  · intro hr
    rw [readMonth_fst w hp, hr, u8_of_lt b hb, eo]
  · intro hr
    rw [readYear_fst w hp, hr, u8_of_lt b hb, ey]

/-- Witness of C20: on a device holding 0xFF everywhere `readYear` returns 165. -/
theorem decoding_never_wraps_witness :
    (0xFF < 256 ∧ worldFF.present = true ∧ worldFF.regs DS3231_YEAR_REG = 0xFF) ∧
      (readYear worldFF).1 = wideYear 0xFF ∧ wideYear 0xFF = 165 :=
  ⟨by decide, ((decoding_never_wraps 0xFF (by decide)).2.2.2 worldFF rfl).2.2.2.2.2 rfl,
    by decide⟩

end DS3231
